import Mathlib

/-!
Verification of the Planetes platformer's level-simulation core.

The definitions below are a shallow embedding of the Python sources
`src/bullets.py`, `src/character.py`, `src/level.py`, `src/tiles.py`,
`src/save.py`, `src/enums.py`, `src/settings.py` and `src/game.py`.

Modelling conventions:
* Numeric quantities that Python keeps as ints or floats are modelled as
  rationals (ℚ).  Every constant relevant to the claims (speeds 8 and 3.5,
  bullet speeds 7 and 10, gravity 0.8, shoot delay 0.18, bullet range 550,
  tile size 64, jump impulse -16) is exactly representable, so nothing
  below depends on binary floating-point rounding.  pygame `Rect` stores
  truncated integer coordinates; the collision logic under study is
  independent of that truncation, so rect coordinates are kept exact.
* The Python `set` of `Collisions` flags (a four-element enum) is modelled
  as a record of four booleans.
* pygame surfaces are modelled by their size plus a flag recording whether
  the surface is a fully transparent `SRCALPHA` blank (the only property
  of image content the level logic distinguishes).
* Python object identity (`is`) is modelled with explicit numeric object
  ids: distinct objects carry distinct ids.  `Level.__init__` stores
  `self.player = PlayerGroup(player_sprite)`, a `GroupSingle` *group*
  object, while the collision routines receive `self.player.sprite`, the
  `Player` sprite inside it — two distinct Python objects, hence distinct
  ids.
-/

namespace Planetes

/-- `pygame.math.Vector2`, used for character velocity. -/
structure Vec2 where
  x : ℚ
  y : ℚ
  deriving DecidableEq

/-- `pygame.Rect`: axis-aligned box, position `(x, y)` and size `(w, h)`. -/
structure Rect where
  x : ℚ
  y : ℚ
  w : ℚ
  h : ℚ
  deriving DecidableEq

def Rect.left (r : Rect) : ℚ := r.x

def Rect.right (r : Rect) : ℚ := r.x + r.w

def Rect.top (r : Rect) : ℚ := r.y

def Rect.bottom (r : Rect) : ℚ := r.y + r.h

/-- Assigning `rect.left = v` moves the box, keeping its size. -/
def Rect.setLeft (r : Rect) (v : ℚ) : Rect := { r with x := v }

/-- Assigning `rect.right = v`. -/
def Rect.setRight (r : Rect) (v : ℚ) : Rect := { r with x := v - r.w }

/-- Assigning `rect.top = v`. -/
def Rect.setTop (r : Rect) (v : ℚ) : Rect := { r with y := v }

/-- Assigning `rect.bottom = v`. -/
def Rect.setBottom (r : Rect) (v : ℚ) : Rect := { r with y := v - r.h }

/-- `pygame.Rect.colliderect`: strict overlap on both axes (rects sharing
only an edge, or with zero width or height, do not collide). -/
def collideRect (a b : Rect) : Bool :=
  decide (a.x < b.x + b.w) && decide (a.y < b.y + b.h) &&
  decide (a.x + a.w > b.x) && decide (a.y + a.h > b.y)

/-- `enums.Orientation`. -/
inductive Orientation where
  | RIGHT
  | LEFT
  deriving DecidableEq

/-- `enums.PlayerState`. -/
inductive PlayerState where
  | IDLE
  | RUN
  | JUMP
  | FALL
  deriving DecidableEq

/-- The per-character `set[Collisions]` (enum flags TOP BOTTOM LEFT RIGHT),
modelled as four booleans. -/
structure CollisionSet where
  top : Bool
  bottom : Bool
  left : Bool
  right : Bool
  deriving DecidableEq

def CollisionSet.empty : CollisionSet := ⟨false, false, false, false⟩

-- Constants from `enums.Speeds` and `settings.py`.

def playerMovementSpeed : ℚ := 8

def playerJumpSpeed : ℚ := -16

def gravitySpeed : ℚ := 4/5

def shootDelay : ℚ := 9/50

def enemyMovementSpeed : ℚ := 7/2

def bulletDefaultSpeed : ℚ := 10

def tileSize : ℚ := 64

/-- A pygame surface, abstracted to its size and whether it is a fully
transparent `SRCALPHA` blank. -/
structure Surface where
  w : ℚ
  h : ℚ
  blank : Bool
  deriving DecidableEq

/-- `pygame.transform.scale` by per-axis factors (`CustomSprite.scaled`). -/
def Surface.scaledBy (s : Surface) (sx sy : ℚ) : Surface := ⟨s.w * sx, s.h * sy, s.blank⟩

/-- `bullets.Bullet`: position is the rect topleft; `spawn` remembers the
creation position; `is_alive` is the liveness flag. -/
structure Bullet where
  x : ℚ
  y : ℚ
  w : ℚ
  h : ℚ
  spawnX : ℚ
  spawnY : ℚ
  orientation : Orientation
  speed : ℚ
  is_alive : Bool
  deriving DecidableEq

/-- `Bullet.__init__`: rect at `(x, y)` with the image's size, `spawn`
recorded as `(x, y)`, alive. -/
def Bullet.spawn (x y : ℚ) (image : Surface) (o : Orientation) (speed : ℚ) : Bullet :=
  ⟨x, y, image.w, image.h, x, y, o, speed, true⟩

/-- The first two lines of `Bullet.update`: the new `rect.x` after moving
by `speed` along the orientation (LEFT decreases x, RIGHT increases x). -/
def Bullet.moved (b : Bullet) : ℚ :=
  match b.orientation with
  | Orientation.LEFT => b.x - b.speed
  | Orientation.RIGHT => b.x + b.speed

/-- `Bullet.update`: move by `speed` along the orientation, then die
(`kill()` removes the sprite from its groups; `is_alive = False`) when the
horizontal displacement from the spawn point exceeds 550. -/
def Bullet.update (b : Bullet) : Bullet :=
  if 550 < |b.moved - b.spawnX| then
    { b with x := b.moved, is_alive := false }
  else
    { b with x := b.moved }

/-- The bullet's state after `n` frames of `Bullet.update`. -/
def bulletTicks (b : Bullet) : Nat → Bullet
  | 0 => b
  | n + 1 => Bullet.update (bulletTicks b n)

/-- `character.Player` (a `Character` with the `Shooter` mixin): rect,
velocity `direction`, speed, collision-flag set, liveness (pygame `kill`
removes the sprite from play), orientation, animation status, score, the
owned bullet list and the shoot-cooldown timestamp. -/
structure Player where
  rect : Rect
  direction : Vec2
  speed : ℚ
  collisions : CollisionSet
  alive : Bool
  orientation : Orientation
  status : PlayerState
  score : Int
  bullets : List Bullet
  last_shot : ℚ
  deriving DecidableEq

/-- `Player.x` property: `rect.x + rect.width // 2`. -/
def Player.x (p : Player) : ℚ := p.rect.x + (⌊p.rect.w / 2⌋ : ℤ)

/-- `Player.y` property: `rect.y + rect.height // 2`. -/
def Player.y (p : Player) : ℚ := p.rect.y + (⌊p.rect.h / 2⌋ : ℤ)

/-- `Shooter.shoot`, called with the current wall-clock time `now`:
spawn a bullet at `(self.x, self.y)` with the shooter's orientation and
reset the cooldown stamp, but only when `now - last_shot` exceeds
`Speeds.SHOOT_DELAY` (0.18 s); otherwise a no-op. -/
def shoot (p : Player) (bullet_image : Surface) (speed : ℚ) (now : ℚ) : Player :=
  if shootDelay < now - p.last_shot then
    { p with
        bullets := p.bullets ++ [Bullet.spawn (Player.x p) (Player.y p) bullet_image p.orientation speed],
        last_shot := now }
  else
    p

/-- `Shooter.display_bullets`: every bullet in the owner's list is put in a
fresh one-sprite group, updated, and drawn only if still in that group
(i.e. only if alive).  The owner's `bullets` list itself is never pruned:
its elements are just mutated by `Bullet.update`. -/
def display_bullets (p : Player) : Player :=
  { p with bullets := p.bullets.map Bullet.update }

/-- `Player.update_status`: recompute the animation state from velocity. -/
def update_status (p : Player) : Player :=
  if p.direction.y < 0 then { p with status := PlayerState.JUMP }
  else if 1 < p.direction.y then { p with status := PlayerState.FALL }
  else if p.direction.x ≠ 0 then { p with status := PlayerState.RUN }
  else { p with status := PlayerState.IDLE }

/-- `Player.apply_gravity`: `direction.y += 0.8; rect.y += direction.y`. -/
def apply_gravity (p : Player) : Player :=
  let dy : ℚ := p.direction.y + gravitySpeed
  { p with direction := { p.direction with y := dy }, rect := { p.rect with y := p.rect.y + dy } }

/-- The shared `character.Character` state used by the horizontal collision
pass (`Player` and `Enemy` alike).  `objId` is the Python object identity;
`isEnemy` records whether `type(character) is Enemy`. -/
structure Character where
  rect : Rect
  direction : Vec2
  speed : ℚ
  collisions : CollisionSet
  alive : Bool
  objId : Nat
  isEnemy : Bool
  deriving DecidableEq

/-- `tiles.Square`: an image plus the three independent capability flags
`collides`, `collectable`, `kills`. -/
structure Square where
  image : Surface
  rect : Rect
  collides : Bool
  collectable : Bool
  kills : Bool
  deriving DecidableEq

/-- `Square.__init__` (rect not yet placed; `image.get_rect()` is at the
origin until `with_rect` is called). -/
def mkSquare (image : Surface) (collides collectable kills : Bool) : Square :=
  ⟨image, ⟨0, 0, image.w, image.h⟩, collides, collectable, kills⟩

/-- `CustomSprite.scaled`. -/
def Square.scaled (s : Square) (sx sy : ℚ) : Square := { s with image := s.image.scaledBy sx sy }

/-- `CustomSprite.with_rect`: `rect = image.get_rect(topleft=(x, y))`. -/
def Square.with_rect (s : Square) (x y : ℚ) : Square :=
  { s with rect := ⟨x, y, s.image.w, s.image.h⟩ }

/-- The slice of `level.Level` state read and written by the horizontal
collision pass: the tile group, the `current_x` collision anchor, and the
object id of `self.player` (the `PlayerGroup` *group* object). -/
structure LevelSim where
  tiles : List Square
  current_x : ℚ
  playerGroupId : Nat
  deriving DecidableEq

/-- The enemy wall-bounce check at the top of the per-tile loop body of
`Level.horizontal_movement_collision`.  It runs for *every* sprite of the
tile group (the `collides` capability is only tested afterwards): if the
character is an `Enemy` moving right whose right edge lies strictly
between the tile's left and right edges, flip the horizontal direction and
reset the speed to `Speeds.ENEMY_MOVEMENT` (3.5). -/
def enemyFlip (c : Character) (t : Square) : Character :=
  if c.isEnemy = true ∧ 0 < c.direction.x ∧ t.rect.left < c.rect.right ∧ c.rect.right < t.rect.right then
    { c with direction := { c.direction with x := -c.direction.x }, speed := enemyMovementSpeed }
  else
    c

/-- One iteration of the tile loop of `Level.horizontal_movement_collision`:
the enemy wall-bounce check, then, for a solid tile overlapping the
character, either the kill branch (`if character is self.player`, an
identity test of the character against the player *group* object) or the
left/right edge snap that also records the `current_x` anchor. -/
def hmcStep (playerGroupId : Nat) (st : Character × ℚ) (t : Square) : Character × ℚ :=
  let c := enemyFlip st.1 t
  let cx := st.2
  if t.collides = true ∧ collideRect t.rect c.rect = true then
    if t.kills = true then
      (if c.objId = playerGroupId then { c with alive := false } else c, cx)
    else if c.direction.x < 0 then
      ({ c with rect := c.rect.setLeft t.rect.right,
                collisions := { c.collisions with left := true } }, t.rect.left)
    else if 0 < c.direction.x then
      ({ c with rect := c.rect.setRight t.rect.left,
                collisions := { c.collisions with right := true } }, t.rect.right)
    else
      (c, cx)
  else
    (c, cx)

/-- The post-sweep flag clearing of `Level.horizontal_movement_collision`:
drop LEFT when the left edge sits strictly left of `current_x` or the
character is not moving left; symmetrically for RIGHT. -/
def clearStaleFlags (c : Character) (cx : ℚ) : Character :=
  let c1 :=
    if c.collisions.left = true ∧ (c.rect.left < cx ∨ 0 ≤ c.direction.x) then
      { c with collisions := { c.collisions with left := false } }
    else
      c
  if c1.collisions.right = true ∧ (cx < c1.rect.right ∨ c1.direction.x ≤ 0) then
    { c1 with collisions := { c1.collisions with right := false } }
  else
    c1

/-- `Level.horizontal_movement_collision`: advance `rect.x` by
`direction.x * speed`, sweep the tile group, then clear stale flags.
Returns the updated character together with the updated `current_x`. -/
def horizontal_movement_collision (lvl : LevelSim) (c : Character) : Character × ℚ :=
  let c0 := { c with rect := { c.rect with x := c.rect.x + c.direction.x * c.speed } }
  let r := lvl.tiles.foldl (hmcStep lvl.playerGroupId) (c0, lvl.current_x)
  (clearStaleFlags r.1 r.2, r.2)

/-- The solid-tile branch of the per-tile body of
`Level.vertical_movement_collision`: for a solid tile overlapping the
player, either kill the player and raise `GameOver` (modelled by
`Except.error` carrying the killed player), or snap bottom/top and zero
the vertical velocity, setting the matching collision flag. -/
def vmcTileSolid (p : Player) (t : Square) : Except Player Player :=
  if t.collides = true then
    if collideRect t.rect p.rect = true then
      if t.kills = true then
        Except.error { p with alive := false }
      else if 0 < p.direction.y then
        Except.ok { p with rect := p.rect.setBottom t.rect.top,
                           direction := { p.direction with y := 0 },
                           collisions := { p.collisions with bottom := true } }
      else if p.direction.y < 0 then
        Except.ok { p with rect := p.rect.setTop t.rect.bottom,
                           direction := { p.direction with y := 0 },
                           collisions := { p.collisions with top := true } }
      else
        Except.ok p
    else
      Except.ok p
  else
    Except.ok p

/-- The collectable branch of the per-tile body of
`Level.vertical_movement_collision`: a collectable tile overlapping the
player is killed (removed from the tile group, `Bool` result `false`) and
the score is incremented.  The overlap is tested against the player rect
as left by the solid branch of the same tile. -/
def vmcTileCollect (p : Player) (t : Square) : Player × Bool :=
  if t.collectable = true then
    if collideRect t.rect p.rect = true then
      ({ p with score := p.score + 1 }, false)
    else
      (p, true)
  else
    (p, true)

/-- The tile loop of `Level.vertical_movement_collision` over a snapshot of
the tile group.  The result carries the player and the surviving tiles;
an `Except.error` is the `GameOver` exception raised from inside the loop
(the player already killed, the not-yet-collected tiles still in the
group). -/
def vmcGo (p : Player) : List Square → Except (Player × List Square) (Player × List Square)
  | [] => Except.ok (p, [])
  | t :: ts =>
    match vmcTileSolid p t with
    | Except.error pd => Except.error (pd, t :: ts)
    | Except.ok p1 =>
      match vmcTileCollect p1 t with
      | (p2, keep) =>
        match vmcGo p2 ts with
        | Except.ok (q, rest) => Except.ok (q, if keep then t :: rest else rest)
        | Except.error (q, rest) => Except.error (q, if keep then t :: rest else rest)

/-- `Level.vertical_movement_collision`: apply gravity, sweep the tiles
(possibly raising `GameOver`), then clear the stale BOTTOM/TOP flags. -/
def vertical_movement_collision (p : Player) (tiles : List Square) :
    Except (Player × List Square) (Player × List Square) :=
  match vmcGo (apply_gravity p) tiles with
  | Except.error r => Except.error r
  | Except.ok (q, rest) =>
    let q1 :=
      if q.collisions.bottom = true ∧ (q.direction.y < 0 ∨ 1 < q.direction.y) then
        { q with collisions := { q.collisions with bottom := false } }
      else
        q
    let q2 :=
      if q1.collisions.top = true ∧ 1/10 < q1.direction.y then
        { q1 with collisions := { q1.collisions with top := false } }
      else
        q1
    Except.ok (q2, rest)

/-- The frame loop of `game.main`: each iteration runs one simulation step
(`level.run`); a raised `GameOver` is caught, the level is torn down and
the process exits (`raise SystemExit(0)`), so no later iteration runs a
simulation step.  `framesExecuted step fuel s` counts the simulation steps
that actually start. -/
def framesExecuted {S E : Type} (step : S → Except E S) : Nat → S → Nat
  | 0, _ => 0
  | n + 1, s =>
    match step s with
    | Except.error _ => 1
    | Except.ok s2 => 1 + framesExecuted step n s2

/-- `enums.CellType`. -/
inductive CellType where
  | EMPTY
  | WALL
  | PLAYER
  | ENEMY
  | COIN
  | DEATH_BOX
  deriving DecidableEq

/-- `CellType(cell)`: the enum lookup; an unknown character raises
`ValueError`, modelled as `none`. -/
def CellType.ofChar (ch : Char) : Option CellType :=
  if ch = ' ' then some CellType.EMPTY
  else if ch = 'X' then some CellType.WALL
  else if ch = 'P' then some CellType.PLAYER
  else if ch = 'E' then some CellType.ENEMY
  else if ch = 'C' then some CellType.COIN
  else if ch = 'D' then some CellType.DEATH_BOX
  else none

/-- The external image assets used by `Level.spawn_sprites` (tile-sheet
cut-outs and files loaded from disk). -/
structure SpawnImages where
  squareTile : Surface
  coinTile : Surface
  playerIdle : Surface
  enemyImage : Surface
  bulletImage : Surface
  deriving DecidableEq

/-- A `Surface((64, 64), pygame.SRCALPHA)`: a fully transparent blank. -/
def blankSurface64 : Surface := ⟨64, 64, true⟩

/-- The wall tile spawned for an `X` cell:
`Square(map_tiles.square).scaled(4, 4).with_rect(x, y)`. -/
def wallTile (imgs : SpawnImages) (x y : ℚ) : Square :=
  ((mkSquare imgs.squareTile true false false).scaled 4 4).with_rect x y

/-- The coin tile spawned for a `C` cell:
`Square(map_tiles.coin, collides=False, collectable=True).scaled(2, 2).with_rect(x + 16, y + 16)`. -/
def coinTile (imgs : SpawnImages) (x y : ℚ) : Square :=
  ((mkSquare imgs.coinTile false true false).scaled 2 2).with_rect (x + 16) (y + 16)

/-- The death box spawned for a `D` cell: an invisible killing solid,
`Square(Surface((64, 64), SRCALPHA), kills=True).scaled(4, 4).with_rect(x, y)`. -/
def deathTile (x y : ℚ) : Square :=
  ((mkSquare blankSurface64 true false true).scaled 4 4).with_rect x y

/-- The invisible solid spawned alongside the enemy for an `E` cell:
`Square(Surface((64, 64), SRCALPHA)).scaled(4, 4).with_rect(x, y)`. -/
def enemyBlockTile (x y : ℚ) : Square :=
  ((mkSquare blankSurface64 true false false).scaled 4 4).with_rect x y

/-- `Player.__init__` at a `P` cell: rect at the cell's topleft with the
idle image's size, speed `Speeds.PLAYER_MOVEMENT`, facing right, no
collision flags, idle, score 0, no bullets, cooldown stamp 0. -/
def mkPlayer (imgs : SpawnImages) (x y : ℚ) : Player :=
  ⟨⟨x, y, imgs.playerIdle.w, imgs.playerIdle.h⟩, ⟨0, 0⟩, playerMovementSpeed,
    CollisionSet.empty, true, Orientation.RIGHT, PlayerState.IDLE, 0, [], 0⟩

/-- `Enemy.__init__` as called from `spawn_sprites` (the enemy itself is
placed 64 units above the cell, see the caller).  Enemy object ids play no
role in the claims below, so a fixed id is used. -/
def mkEnemy (imgs : SpawnImages) (x y : ℚ) : Character :=
  ⟨⟨x, y, imgs.enemyImage.w, imgs.enemyImage.h⟩, ⟨0, 0⟩, enemyMovementSpeed,
    CollisionSet.empty, true, 0, true⟩

/-- The accumulating state of the `spawn_sprites` double loop: the tile
group, the `self.enemies` list and the `player_sprite` local (the last `P`
cell wins). -/
structure SpawnAcc where
  tiles : List Square
  enemies : List Character
  player : Option Player
  deriving DecidableEq

/-- The two ways `Level.spawn_sprites` can raise: `ValueError` from the
`CellType(cell)` enum lookup, and `ValueError("No player found")`. -/
inductive SpawnError where
  | invalidCell
  | noPlayer
  deriving DecidableEq

/-- The `match CellType(cell)` body of `spawn_sprites` for one cell at
pixel position `(x, y)`. -/
def spawnCell (imgs : SpawnImages) (x y : ℚ) (acc : SpawnAcc) : CellType → SpawnAcc
  | CellType.WALL => { acc with tiles := acc.tiles ++ [wallTile imgs x y] }
  | CellType.PLAYER => { acc with player := some (mkPlayer imgs x y) }
  | CellType.COIN => { acc with tiles := acc.tiles ++ [coinTile imgs x y] }
  | CellType.DEATH_BOX => { acc with tiles := acc.tiles ++ [deathTile x y] }
  | CellType.ENEMY =>
    { acc with enemies := acc.enemies ++ [mkEnemy imgs x (y - 64)],
               tiles := acc.tiles ++ [enemyBlockTile x y] }
  | CellType.EMPTY => acc

/-- The inner (column) loop of `spawn_sprites` over one row, starting at
column index `col`; `x = col_index * tile_size`. -/
def spawnRowGo (imgs : SpawnImages) (y : ℚ) : Nat → SpawnAcc → List Char → Except SpawnError SpawnAcc
  | _, acc, [] => Except.ok acc
  | col, acc, ch :: rest =>
    match CellType.ofChar ch with
    | none => Except.error SpawnError.invalidCell
    | some ct => spawnRowGo imgs y (col + 1) (spawnCell imgs (tileSize * col) y acc ct) rest

/-- The outer (row) loop of `spawn_sprites`; `y = row_index * tile_size`. -/
def spawnRowsGo (imgs : SpawnImages) : Nat → SpawnAcc → List String → Except SpawnError SpawnAcc
  | _, acc, [] => Except.ok acc
  | row, acc, r :: rest =>
    match spawnRowGo imgs (tileSize * row) 0 acc r.data with
    | Except.error e => Except.error e
    | Except.ok acc2 => spawnRowsGo imgs (row + 1) acc2 rest

/-- `Level.spawn_sprites`: walk the layout building tiles, enemies and the
player; raise `ValueError("No player found")` when no `P` cell set the
player. -/
def spawn_sprites (imgs : SpawnImages) (layout : List String) :
    Except SpawnError (List Square × Player × List Character) :=
  match spawnRowsGo imgs 0 ⟨[], [], none⟩ layout with
  | Except.error e => Except.error e
  | Except.ok acc =>
    match acc.player with
    | none => Except.error SpawnError.noPlayer
    | some p => Except.ok (acc.tiles, p, acc.enemies)

/-- A JSON value, enough for the shapes `Save.to_json` produces. -/
inductive Json where
  | str : String → Json
  | int : Int → Json
  | arr : List Json → Json

/-- `save.Save` (a pydantic `BaseModel`). -/
structure Save where
  name : String
  score : Int
  level : Int
  map : List String
  created_at : String
  deriving DecidableEq

/-- `Save.to_json`: the dict with exactly the five fields, in insertion
order, modelled as an association list. -/
def Save.to_json (s : Save) : List (String × Json) :=
  [(("name"), Json.str s.name),
   (("score"), Json.int s.score),
   (("level"), Json.int s.level),
   (("map"), Json.arr (s.map.map Json.str)),
   (("created_at"), Json.str s.created_at)]

/-- Python dict key access `d[key]` on the association-list model. -/
def jsonLookup : List (String × Json) → String → Option Json
  | [], _ => none
  | (k, v) :: rest, key => if k = key then some v else jsonLookup rest key

/-- pydantic validation of `map`: a JSON array of strings. -/
def decodeStrList : List Json → Option (List String)
  | [] => some []
  | Json.str s :: rest =>
    match decodeStrList rest with
    | some l => some (s :: l)
    | none => none
  | _ => none

/-- `Save.from_json`: read the five keys back, with pydantic validating
the field types (a failure is `none`). -/
def Save.from_json (j : List (String × Json)) : Option Save :=
  match jsonLookup j ("name"), jsonLookup j ("score"), jsonLookup j ("level"),
        jsonLookup j ("map"), jsonLookup j ("created_at") with
  | some (Json.str n), some (Json.int sc), some (Json.int lv), some (Json.arr m),
    some (Json.str ca) =>
    match decodeStrList m with
    | some rows => some ⟨n, sc, lv, rows, ca⟩
    | none => none
  | _, _, _, _, _ => none

-- ------------------------------------------------------------------
-- Helper lemmas
-- ------------------------------------------------------------------

lemma bulletTicks_spawnX (b : Bullet) (n : Nat) : (bulletTicks b n).spawnX = b.spawnX := by
  induction n with
  | zero => rfl
  | succ n ih =>
    show (Bullet.update (bulletTicks b n)).spawnX = b.spawnX
    unfold Bullet.update
    split <;> simp [ih]

lemma bullet_update_dead (b : Bullet) (h : 550 < |(Bullet.update b).x - b.spawnX|) :
    (Bullet.update b).is_alive = false := by
  by_cases hc : 550 < |b.moved - b.spawnX|
  · simp [Bullet.update, hc]
  · exfalso
    apply hc
    simp only [Bullet.update, if_neg hc] at h
    exact h

lemma shoot_hit (p : Player) (img : Surface) (sp now : ℚ) (h : shootDelay < now - p.last_shot) :
    shoot p img sp now =
      { p with
          bullets := p.bullets ++ [Bullet.spawn (Player.x p) (Player.y p) img p.orientation sp],
          last_shot := now } := by
  simp only [shoot, if_pos h]

lemma shoot_miss (p : Player) (img : Surface) (sp now : ℚ) (h : ¬ shootDelay < now - p.last_shot) :
    shoot p img sp now = p := by
  simp only [shoot, if_neg h]

lemma decodeStrList_map (l : List String) : decodeStrList (l.map Json.str) = some l := by
  induction l with
  | nil => rfl
  | cons a l ih => simp [decodeStrList, ih]

-- ------------------------------------------------------------------
-- Claims
-- ------------------------------------------------------------------

/-- Claim C3: `Player.update_status` sets the player state as a pure
function of the current velocity vector, for every velocity value: JUMP
when `direction.y < 0`; else FALL when `direction.y > 1`; else RUN when
`direction.x ≠ 0`; else IDLE. -/
theorem claim_C3_update_status (p : Player) :
    ((p.direction.y < 0 → (update_status p).status = PlayerState.JUMP) ∧
     (0 ≤ p.direction.y → 1 < p.direction.y → (update_status p).status = PlayerState.FALL) ∧
     (0 ≤ p.direction.y → p.direction.y ≤ 1 → p.direction.x ≠ 0 →
        (update_status p).status = PlayerState.RUN) ∧
     (0 ≤ p.direction.y → p.direction.y ≤ 1 → p.direction.x = 0 →
        (update_status p).status = PlayerState.IDLE)) ∧
    (∀ q : Player, p.direction = q.direction →
      (update_status p).status = (update_status q).status) := by
  constructor
  · refine ⟨?_, ?_, ?_, ?_⟩ <;> intros <;> simp only [update_status] <;> split_ifs <;>
      first
      | rfl
      | (exfalso; linarith)
      | (exfalso; tauto)
  · intro q h
    simp only [update_status]
    rw [h]
    split_ifs <;> rfl

/-- A player who just jumped: velocity `(0, -16)`. -/
def playerJumpW : Player :=
  ⟨⟨0, 0, 10, 10⟩, ⟨0, -16⟩, 8, CollisionSet.empty, true,
    Orientation.RIGHT, PlayerState.IDLE, 0, [], 0⟩

/-- Witness for claim C3 at a concrete velocity: `direction.y = -16`
(just jumped) gives state JUMP. -/
theorem claim_C3_update_status_witness :
    playerJumpW.direction.y < 0 ∧ (update_status playerJumpW).status = PlayerState.JUMP :=
  ⟨by norm_num [playerJumpW],
   (claim_C3_update_status playerJumpW).1.1 (by norm_num [playerJumpW])⟩

/-- Claim C5: `Shooter.shoot` appends exactly one new bullet at the
shooter's current `(x, y, orientation)` and resets the cooldown stamp iff
the elapsed time since the last successful shot strictly exceeds 0.18 s,
and otherwise leaves the player unchanged; hence two requests 0.05 s apart
yield one bullet and two requests 0.2 s apart yield two bullets. -/
theorem claim_C5_shoot_cooldown (p : Player) (img : Surface) (sp now : ℚ) :
    (shootDelay < now - p.last_shot →
      shoot p img sp now =
        { p with
            bullets := p.bullets ++ [Bullet.spawn (Player.x p) (Player.y p) img p.orientation sp],
            last_shot := now }) ∧
    (¬ shootDelay < now - p.last_shot → shoot p img sp now = p) ∧
    (shootDelay < now - p.last_shot →
      (shoot (shoot p img sp now) img sp (now + 1/20)).bullets.length = p.bullets.length + 1) ∧
    (shootDelay < now - p.last_shot →
      (shoot (shoot p img sp now) img sp (now + 1/5)).bullets.length = p.bullets.length + 2) := by
  refine ⟨shoot_hit p img sp now, shoot_miss p img sp now, fun h => ?_, fun h => ?_⟩
  · rw [shoot_hit p img sp now h]
    rw [shoot_miss]
    · simp
    · norm_num [shootDelay]
  · rw [shoot_hit p img sp now h]
    rw [shoot_hit]
    · simp
    · norm_num [shootDelay]

/-- A fresh idle player with no bullets and cooldown stamp 0. -/
def playerIdleW : Player :=
  ⟨⟨0, 0, 10, 10⟩, ⟨0, 0⟩, 8, CollisionSet.empty, true,
    Orientation.RIGHT, PlayerState.IDLE, 0, [], 0⟩

/-- A small opaque-image surface used as concrete input. -/
def surfW : Surface := ⟨4, 4, false⟩

/-- Witness for claim C5 at a concrete input: a first shot at time 1 on a
fresh player succeeds, and a second request 0.2 s later yields a second
bullet. -/
theorem claim_C5_shoot_cooldown_witness :
    shootDelay < 1 - playerIdleW.last_shot ∧
    (shoot (shoot playerIdleW surfW 7 1) surfW 7 (1 + 1/5)).bullets.length =
      playerIdleW.bullets.length + 2 :=
  ⟨by norm_num [shootDelay, playerIdleW],
   (claim_C5_shoot_cooldown playerIdleW surfW 7 1).2.2.2
     (by norm_num [shootDelay, playerIdleW])⟩

/-- Claim C9: `Save.from_json (Save.to_json s) = s` for every save,
including empty maps and empty rows, and `to_json` has exactly the five
keys name, score, level, map, created-at, in order. -/
theorem claim_C9_save_roundtrip (s : Save) :
    Save.from_json (Save.to_json s) = some s ∧
    (Save.to_json s).map Prod.fst =
      [("name"), ("score"), ("level"), ("map"), ("created_at")] := by
  constructor
  · simp [Save.from_json, Save.to_json, jsonLookup, decodeStrList_map]
  · rfl

/-- A live bullet 545 units right of its spawn point, about to cross the
550-unit range on its next update. -/
def bulletFarW : Bullet := ⟨545, 0, 4, 4, 0, 0, Orientation.RIGHT, 10, true⟩

/-- A player owning exactly `bulletFarW`. -/
def ownerW : Player :=
  ⟨⟨0, 0, 10, 10⟩, ⟨0, 0⟩, 8, CollisionSet.empty, true,
    Orientation.RIGHT, PlayerState.IDLE, 0, [bulletFarW], 0⟩

/-- Counterexample to claim C4 as stated: after the owner's per-frame
bullet pass, the bullet's displacement exceeds 550 and it is dead, yet it
is still in the owner's `bullets` list — it is not removed from the
owner's active bullet list as the claim asserts. -/
theorem claim_C4_cex :
    (display_bullets ownerW).bullets = [Bullet.update bulletFarW] ∧
    (Bullet.update bulletFarW).is_alive = false ∧
    550 < |(Bullet.update bulletFarW).x - (Bullet.update bulletFarW).spawnX| ∧
    (display_bullets ownerW).bullets.length = 1 := by
  refine ⟨rfl, ?_, ?_, rfl⟩ <;> norm_num [Bullet.update, Bullet.moved, bulletFarW]

/-- Claim C4 (amended): after any update step in which the bullet's
horizontal displacement from its spawn x exceeds 550 units, the bullet is
dead (`is_alive = false`) and no longer drawn (killed out of its sprite
group), but it stays in its owner's `bullets` list, which the owner never
prunes: the per-frame pass only maps `Bullet.update` over it.  At every
tick `t` with `|x(t) − x(spawn)| > 550` the bullet is dead. -/
theorem claim_C4_range_death (x y : ℚ) (img : Surface) (o : Orientation) (sp : ℚ) (n : Nat)
    (h : 550 < |(bulletTicks (Bullet.spawn x y img o sp) n).x -
                (Bullet.spawn x y img o sp).spawnX|) :
    (bulletTicks (Bullet.spawn x y img o sp) n).is_alive = false ∧
    (∀ q : Player, (display_bullets q).bullets = q.bullets.map Bullet.update) := by
  constructor
  · cases n with
    | zero =>
      exfalso
      simp [bulletTicks, Bullet.spawn] at h
      linarith
    | succ n =>
      show (Bullet.update (bulletTicks (Bullet.spawn x y img o sp) n)).is_alive = false
      apply bullet_update_dead
      rw [bulletTicks_spawnX]
      exact h
  · intro q
    rfl

/-- A solid killing death box (as spawned for a `D` cell). -/
def killerW : Square := ⟨⟨64, 64, true⟩, ⟨0, 0, 256, 256⟩, true, false, true⟩

lemma vmcGo_append (l1 l2 : List Square) : ∀ p : Player,
    vmcGo p (l1 ++ l2) =
      match vmcGo p l1 with
      | Except.error (q, s) => Except.error (q, s ++ l2)
      | Except.ok (q, s) =>
        match vmcGo q l2 with
        | Except.ok (r, s2) => Except.ok (r, s ++ s2)
        | Except.error (r, s2) => Except.error (r, s ++ s2) := by
  induction l1 with
  | nil =>
    intro p
    simp only [List.nil_append, vmcGo]
    cases h : vmcGo p l2 with
    | ok r => cases r; simp
    | error r => cases r; simp
  | cons t ts ih =>
    intro p
    simp only [List.cons_append, vmcGo]
    cases hs : vmcTileSolid p t with
    | error pd => simp
    | ok p1 =>
      cases hcol : vmcTileCollect p1 t with
      | mk p2 keep =>
        simp only [hcol, List.append_eq]
        rw [ih p2]
        cases h1 : vmcGo p2 ts with
        | ok r =>
          cases r with
          | mk q rest =>
            cases h2 : vmcGo q l2 with
            | ok r2 => cases r2; cases keep <;> simp [h2]
            | error r2 => cases r2; cases keep <;> simp [h2]
        | error r => cases r; cases keep <;> simp

/-- Claim C2: during vertical collision resolution, when the sweep reaches
a solid killing tile that overlaps the player (the tiles before it having
been processed without raising), the player is killed and the
`GameOver` signal is raised; the signal is terminal for the run — the
frame loop of `game.main` executes no further simulation steps after a
step raises. -/
theorem claim_C2_death_tile (p : Player) (pre post : List Square) (t : Square) (q : Player)
    (s : List Square) (hc : t.collides = true) (hk : t.kills = true)
    (hpre : vmcGo (apply_gravity p) pre = Except.ok (q, s))
    (hcol : collideRect t.rect q.rect = true) :
    vertical_movement_collision p (pre ++ t :: post) =
      Except.error ({ q with alive := false }, s ++ (t :: post)) ∧
    (∀ (S E : Type) (step : S → Except E S) (s0 : S) (e : E) (n : Nat),
       step s0 = Except.error e → framesExecuted step (n + 1) s0 = 1) := by
  constructor
  · unfold vertical_movement_collision
    rw [vmcGo_append pre (t :: post) (apply_gravity p), hpre]
    have hsolid : vmcTileSolid q t = Except.error { q with alive := false } := by
      unfold vmcTileSolid
      rw [if_pos hc, if_pos hcol, if_pos hk]
    simp only [vmcGo, hsolid]
  · intro S E step s0 e n h
    simp [framesExecuted, h]

/-- Witness for claim C2: a player falling onto the concrete death box is
killed and the run ends in `GameOver`. -/
theorem claim_C2_death_tile_witness :
    (killerW.collides = true ∧ killerW.kills = true ∧
      vmcGo (apply_gravity playerIdleW) [] = Except.ok (apply_gravity playerIdleW, []) ∧
      collideRect killerW.rect (apply_gravity playerIdleW).rect = true) ∧
    vertical_movement_collision playerIdleW ([] ++ killerW :: []) =
      Except.error ({ apply_gravity playerIdleW with alive := false }, [] ++ (killerW :: [])) :=
  ⟨⟨rfl, rfl, rfl,
      by norm_num [collideRect, apply_gravity, playerIdleW, killerW, gravitySpeed]⟩,
   (claim_C2_death_tile playerIdleW [] [] killerW (apply_gravity playerIdleW) [] rfl rfl rfl
     (by norm_num [collideRect, apply_gravity, playerIdleW, killerW, gravitySpeed])).1⟩

/-- Claim C1: in the horizontal sweep, a solid non-killing tile
overlapping the character (the wall-bounce check having been applied
first) snaps the left edge to the tile's right edge, marks LEFT and
records `current_x` when moving left — symmetrically for RIGHT when
moving right; after the sweep, LEFT is removed exactly when the left edge
is strictly less than `current_x` or `direction.x ≥ 0`, and RIGHT is
removed exactly when the right edge is strictly greater than `current_x`
or `direction.x ≤ 0`. -/
theorem claim_C1_horizontal_snap_and_clear (pg : Nat) (c : Character) (t : Square) (cx : ℚ)
    (d : Character) (dxa : ℚ) :
    (t.collides = true → t.kills = false →
      collideRect t.rect (enemyFlip c t).rect = true →
      (((enemyFlip c t).direction.x < 0 →
        hmcStep pg (c, cx) t =
          ({ enemyFlip c t with
               rect := (enemyFlip c t).rect.setLeft t.rect.right,
               collisions := { (enemyFlip c t).collisions with left := true } },
           t.rect.left)) ∧
       (0 < (enemyFlip c t).direction.x →
        hmcStep pg (c, cx) t =
          ({ enemyFlip c t with
               rect := (enemyFlip c t).rect.setRight t.rect.left,
               collisions := { (enemyFlip c t).collisions with right := true } },
           t.rect.right)))) ∧
    (d.collisions.left = true →
      ((clearStaleFlags d dxa).collisions.left = false ↔
        (d.rect.left < dxa ∨ 0 ≤ d.direction.x))) ∧
    (d.collisions.right = true →
      ((clearStaleFlags d dxa).collisions.right = false ↔
        (dxa < d.rect.right ∨ d.direction.x ≤ 0))) := by
  refine ⟨fun hc hk hcol => ⟨fun hneg => ?_, fun hpos => ?_⟩, fun hl => ?_, fun hr => ?_⟩
  · simp only [hmcStep]
    rw [if_pos ⟨hc, hcol⟩, if_neg (by simp [hk]), if_pos hneg]
  · simp only [hmcStep]
    rw [if_pos ⟨hc, hcol⟩, if_neg (by simp [hk]), if_neg (by linarith), if_pos hpos]
  · simp only [clearStaleFlags]
    split_ifs with h1 h2 <;> simp_all
  · simp only [clearStaleFlags]
    split_ifs with h1 h2 <;> simp_all

/-- A non-enemy character moving left, about to overlap `tWallW`. -/
def cLeftW : Character := ⟨⟨8, 0, 10, 10⟩, ⟨-1, 0⟩, 8, CollisionSet.empty, true, 1, false⟩

/-- A solid non-killing wall tile. -/
def tWallW : Square := ⟨⟨10, 10, false⟩, ⟨5, 0, 10, 10⟩, true, false, false⟩

/-- A character with a stale LEFT flag. -/
def dLeftW : Character := ⟨⟨0, 0, 10, 10⟩, ⟨0, 0⟩, 8, ⟨false, false, true, false⟩, true, 2, false⟩

/-- Witness for claim C1: the concrete left-moving overlap is snapped,
marked and anchored, and the concrete stale LEFT flag is cleared. -/
theorem claim_C1_horizontal_snap_and_clear_witness :
    (tWallW.collides = true ∧ tWallW.kills = false ∧
      collideRect tWallW.rect (enemyFlip cLeftW tWallW).rect = true ∧
      (enemyFlip cLeftW tWallW).direction.x < 0 ∧
      dLeftW.collisions.left = true) ∧
    hmcStep 0 (cLeftW, 0) tWallW =
      ({ enemyFlip cLeftW tWallW with
           rect := (enemyFlip cLeftW tWallW).rect.setLeft tWallW.rect.right,
           collisions := { (enemyFlip cLeftW tWallW).collisions with left := true } },
       tWallW.rect.left) ∧
    ((clearStaleFlags dLeftW 3).collisions.left = false ↔
      (dLeftW.rect.left < 3 ∨ 0 ≤ dLeftW.direction.x)) :=
  ⟨⟨rfl, rfl, by norm_num [collideRect, enemyFlip, cLeftW, tWallW],
      by norm_num [enemyFlip, cLeftW, tWallW], rfl⟩,
   ((claim_C1_horizontal_snap_and_clear 0 cLeftW tWallW 0 dLeftW 3).1 rfl rfl
       (by norm_num [collideRect, enemyFlip, cLeftW, tWallW])).1
     (by norm_num [enemyFlip, cLeftW, tWallW]),
   (claim_C1_horizontal_snap_and_clear 0 cLeftW tWallW 0 dLeftW 3).2.1 rfl⟩

/-- A patrolling enemy moving right. -/
def enemyW : Character := ⟨⟨0, 0, 10, 10⟩, ⟨1, 0⟩, 7/2, CollisionSet.empty, true, 5, true⟩

/-- A *non-solid* collectable coin tile. -/
def coinW : Square := ⟨⟨10, 10, false⟩, ⟨10, 0, 10, 10⟩, false, true, false⟩

/-- A level slice whose only tile is the non-solid coin. -/
def lvlCoinW : LevelSim := ⟨[coinW], 0, 0⟩

/-- Counterexample to claim C6 as stated: the wall-bounce check runs for
*every* tile of the group, before the `collides` test — here a level with
no solid tile at all still reverses the enemy's direction, because the
geometric condition holds against a non-solid coin tile. -/
theorem claim_C6_cex :
    (horizontal_movement_collision lvlCoinW enemyW).1.direction.x = -1 ∧
    enemyW.direction.x = 1 ∧
    lvlCoinW.tiles.all (fun t => !t.collides) = true := by
  refine ⟨?_, rfl, rfl⟩
  norm_num [horizontal_movement_collision, hmcStep, enemyFlip, clearStaleFlags,
    lvlCoinW, coinW, enemyW, collideRect, enemyMovementSpeed, Rect.left, Rect.right,
    CollisionSet.empty]

/-- Claim C6 (amended): the enemy wall-bounce fires for *any* tile of the
group, solid or not: the direction is flipped and the speed reset to the
enemy base movement speed exactly when the enemy moves right with its
right edge strictly between the tile's left and right edges; nothing else
in the horizontal pass (snapping, kill branch, flag clearing) changes a
character's direction or speed. -/
theorem claim_C6_enemy_flip (c : Character) (t : Square) (pg : Nat) (st : Character × ℚ)
    (u : Character) (ux : ℚ) :
    ((c.isEnemy = true ∧ 0 < c.direction.x ∧ t.rect.left < c.rect.right ∧
        c.rect.right < t.rect.right) →
      enemyFlip c t =
        { c with direction := { c.direction with x := -c.direction.x },
                 speed := enemyMovementSpeed }) ∧
    (¬ (c.isEnemy = true ∧ 0 < c.direction.x ∧ t.rect.left < c.rect.right ∧
        c.rect.right < t.rect.right) →
      enemyFlip c t = c) ∧
    ((hmcStep pg st t).1.direction = (enemyFlip st.1 t).direction) ∧
    ((hmcStep pg st t).1.speed = (enemyFlip st.1 t).speed) ∧
    ((clearStaleFlags u ux).direction = u.direction ∧ (clearStaleFlags u ux).speed = u.speed) := by
  refine ⟨fun h => ?_, fun h => ?_, ?_, ?_, ?_, ?_⟩
  · simp only [enemyFlip]
    rw [if_pos h]
  · simp only [enemyFlip]
    rw [if_neg h]
  · simp only [hmcStep]
    split_ifs <;> rfl
  · simp only [hmcStep]
    split_ifs <;> rfl
  · simp only [clearStaleFlags]
    split_ifs <;> rfl
  · simp only [clearStaleFlags]
    split_ifs <;> rfl

/-- An enemy moving right with its right edge inside the coin tile's span,
with a speed different from the base speed. -/
def enemyMidW : Character := ⟨⟨5, 0, 10, 10⟩, ⟨1, 0⟩, 2, CollisionSet.empty, true, 5, true⟩

/-- Witness for claim C6 (amended): the flip condition holds against the
non-solid coin tile, and the flip plus speed reset indeed happen. -/
theorem claim_C6_enemy_flip_witness :
    (enemyMidW.isEnemy = true ∧ 0 < enemyMidW.direction.x ∧
      coinW.rect.left < enemyMidW.rect.right ∧ enemyMidW.rect.right < coinW.rect.right) ∧
    enemyFlip enemyMidW coinW =
      { enemyMidW with
          direction := { enemyMidW.direction with x := -enemyMidW.direction.x },
          speed := enemyMovementSpeed } :=
  ⟨⟨rfl, by norm_num [enemyMidW], by norm_num [enemyMidW, coinW, Rect.left, Rect.right],
      by norm_num [enemyMidW, coinW, Rect.right]⟩,
   (claim_C6_enemy_flip enemyMidW coinW 0 (enemyMidW, 0) enemyMidW 0).1
     ⟨rfl, by norm_num [enemyMidW], by norm_num [enemyMidW, coinW, Rect.left, Rect.right],
       by norm_num [enemyMidW, coinW, Rect.right]⟩⟩

/-- A level slice holding only the death box; `playerGroupId = 0` is the
id of the `PlayerGroup` object stored in `self.player`. -/
def lvlKillW : LevelSim := ⟨[killerW], 0, 0⟩

/-- The player sprite as passed to `horizontal_movement_collision` from
`Level.run` (`self.player.sprite`): a different Python object from the
`PlayerGroup`, so its id 1 differs from the group's id 0. -/
def playerCharW : Character := ⟨⟨10, 10, 10, 10⟩, ⟨1, 0⟩, 8, CollisionSet.empty, true, 1, false⟩

/-- Claim C7 describes intended behaviour the code misses: the kill branch
of `horizontal_movement_collision` tests `character is self.player`,
comparing the player *sprite* against the `PlayerGroup` object — always
false — so a player overlapping a solid killing tile during the
horizontal sweep survives untouched (`kill()` never runs and nothing is
logged), contradicting the claim. -/
theorem claim_C7_kill_branch_dead :
    killerW.collides = true ∧ killerW.kills = true ∧
    collideRect killerW.rect (horizontal_movement_collision lvlKillW playerCharW).1.rect = true ∧
    (horizontal_movement_collision lvlKillW playerCharW).1.alive = true ∧
    (horizontal_movement_collision lvlKillW playerCharW).1.collisions = CollisionSet.empty := by
  refine ⟨rfl, rfl, ?_, ?_, ?_⟩ <;>
    norm_num [horizontal_movement_collision, hmcStep, enemyFlip, clearStaleFlags,
      lvlKillW, killerW, playerCharW, collideRect, CollisionSet.empty]

/-- Every cell of the layout is one of the six cell codes. -/
def validLayout (layout : List String) : Prop :=
  ∀ r ∈ layout, ∀ ch ∈ r.data, (CellType.ofChar ch).isSome = true

/-- The layout contains at least one `P` cell. -/
def hasPlayerCell (layout : List String) : Prop :=
  ∃ r ∈ layout, 'P' ∈ r.data

lemma ofChar_player_iff (ch : Char) :
    CellType.ofChar ch = some CellType.PLAYER ↔ ch = 'P' := by
  constructor
  · intro h
    by_contra hne
    unfold CellType.ofChar at h
    split_ifs at h <;> simp_all
  · intro h
    subst h
    decide

lemma spawnCell_player (imgs : SpawnImages) (x y : ℚ) (acc : SpawnAcc) (ct : CellType) :
    ((spawnCell imgs x y acc ct).player.isSome = true) ↔
      (acc.player.isSome = true ∨ ct = CellType.PLAYER) := by
  cases ct <;> simp [spawnCell]

lemma spawnRowGo_ok (imgs : SpawnImages) (y : ℚ) :
    ∀ (chars : List Char) (col : Nat) (acc : SpawnAcc),
      (∀ ch ∈ chars, (CellType.ofChar ch).isSome = true) →
      ∃ acc2, spawnRowGo imgs y col acc chars = Except.ok acc2 ∧
        (acc2.player.isSome = true ↔ (acc.player.isSome = true ∨ 'P' ∈ chars)) := by
  intro chars
  induction chars with
  | nil =>
    intro col acc h
    exact ⟨acc, rfl, by simp⟩
  | cons ch rest ih =>
    intro col acc h
    have hch : (CellType.ofChar ch).isSome = true := h ch (by simp)
    obtain ⟨ct, hct⟩ := Option.isSome_iff_exists.mp hch
    obtain ⟨acc2, heq, hiff⟩ :=
      ih (col + 1) (spawnCell imgs (tileSize * col) y acc ct) (fun c hc => h c (by simp [hc]))
    refine ⟨acc2, ?_, ?_⟩
    · simp only [spawnRowGo, hct]
      exact heq
    · rw [hiff, spawnCell_player]
      have hp : (ct = CellType.PLAYER) ↔ (ch = 'P') := by
        rw [← ofChar_player_iff, hct]
        simp
      have hcomm : ('P' = ch) ↔ (ch = 'P') := eq_comm
      rw [hp]
      simp only [List.mem_cons, hcomm]
      tauto

lemma spawnRowsGo_ok (imgs : SpawnImages) :
    ∀ (rows : List String) (ri : Nat) (acc : SpawnAcc),
      (∀ r ∈ rows, ∀ ch ∈ r.data, (CellType.ofChar ch).isSome = true) →
      ∃ acc2, spawnRowsGo imgs ri acc rows = Except.ok acc2 ∧
        (acc2.player.isSome = true ↔
          (acc.player.isSome = true ∨ ∃ r ∈ rows, 'P' ∈ r.data)) := by
  intro rows
  induction rows with
  | nil =>
    intro ri acc h
    exact ⟨acc, rfl, by simp⟩
  | cons row rest ih =>
    intro ri acc h
    obtain ⟨accMid, heqRow, hiffRow⟩ :=
      spawnRowGo_ok imgs (tileSize * ri) row.data 0 acc (h row (by simp))
    obtain ⟨acc2, heq, hiff⟩ := ih (ri + 1) accMid (fun r hr => h r (by simp [hr]))
    refine ⟨acc2, ?_, ?_⟩
    · simp only [spawnRowsGo, heqRow]
      exact heq
    · rw [hiff, hiffRow]
      simp only [List.mem_cons, exists_eq_or_imp]
      tauto

/-- Claim C8: on a layout whose cells are all among the six codes,
`spawn_sprites` raises a construction error iff the layout has no `P`
cell, and with at least one `P` it returns the sprite groups without
error. -/
theorem claim_C8_spawn (imgs : SpawnImages) (layout : List String) (hv : validLayout layout) :
    ((∃ e, spawn_sprites imgs layout = Except.error e) ↔ ¬ hasPlayerCell layout) ∧
    (hasPlayerCell layout →
      ∃ tiles p enemies, spawn_sprites imgs layout = Except.ok (tiles, p, enemies)) := by
  obtain ⟨acc2, heq, hiff⟩ := spawnRowsGo_ok imgs layout 0 ⟨[], [], none⟩ hv
  have hspawn : spawn_sprites imgs layout =
      (match acc2.player with
       | none => Except.error SpawnError.noPlayer
       | some pl => Except.ok (acc2.tiles, pl, acc2.enemies)) := by
    unfold spawn_sprites
    rw [heq]
  simp only [Option.isSome_none, Bool.false_eq_true, false_or] at hiff
  cases hp : acc2.player with
  | none =>
    simp only [hp] at hspawn
    have hnp : ¬ hasPlayerCell layout := by
      intro hh
      have h2 : (none : Option Player).isSome = true := by
        rw [← hp]
        exact hiff.mpr hh
      simp at h2
    constructor
    · rw [hspawn]
      constructor
      · intro _
        exact hnp
      · intro _
        exact ⟨SpawnError.noPlayer, rfl⟩
    · intro hh
      exact absurd hh hnp
  | some pl =>
    simp only [hp] at hspawn
    have hplayer : hasPlayerCell layout := by
      apply hiff.mp
      rw [hp]
      rfl
    constructor
    · rw [hspawn]
      constructor
      · rintro ⟨e, he⟩
        exact absurd he (by simp)
      · intro hno
        exact absurd hplayer hno
    · intro _
      rw [hspawn]
      exact ⟨acc2.tiles, pl, acc2.enemies, rfl⟩

/-- The concrete image assets used in spawn witnesses. -/
def imgsW : SpawnImages := ⟨⟨8, 8, false⟩, ⟨4, 4, false⟩, ⟨6, 6, false⟩, ⟨6, 6, false⟩, ⟨2, 2, false⟩⟩

/-- A one-cell layout holding only the player. -/
def layoutPW : List String := [("P")]

/-- Witness for claim C8: the layout `["P"]` is valid, has a player cell,
and constructs without error. -/
theorem claim_C8_spawn_witness :
    validLayout layoutPW ∧ hasPlayerCell layoutPW ∧
    ∃ tiles p enemies, spawn_sprites imgsW layoutPW = Except.ok (tiles, p, enemies) :=
  ⟨by unfold validLayout layoutPW; decide,
   by unfold hasPlayerCell layoutPW; decide,
   (claim_C8_spawn imgsW layoutPW (by unfold validLayout layoutPW; decide)).2
     (by unfold hasPlayerCell layoutPW; decide)⟩

lemma spawnCell_tiles_mono (imgs : SpawnImages) (x y : ℚ) (acc : SpawnAcc) (ct : CellType)
    {q : Square} (hq : q ∈ acc.tiles) : q ∈ (spawnCell imgs x y acc ct).tiles := by
  cases ct <;> simp [spawnCell, hq]

lemma spawnCell_enemies_mono (imgs : SpawnImages) (x y : ℚ) (acc : SpawnAcc) (ct : CellType)
    {e : Character} (he : e ∈ acc.enemies) : e ∈ (spawnCell imgs x y acc ct).enemies := by
  cases ct <;> simp [spawnCell, he]

lemma spawnRowGo_mono (imgs : SpawnImages) (y : ℚ) :
    ∀ (chars : List Char) (col : Nat) (acc acc2 : SpawnAcc),
      spawnRowGo imgs y col acc chars = Except.ok acc2 →
      (∀ q ∈ acc.tiles, q ∈ acc2.tiles) ∧ (∀ e ∈ acc.enemies, e ∈ acc2.enemies) := by
  intro chars
  induction chars with
  | nil =>
    intro col acc acc2 h
    simp only [spawnRowGo] at h
    injection h with h
    subst h
    exact ⟨fun q hq => hq, fun e he => he⟩
  | cons ch rest ih =>
    intro col acc acc2 h
    simp only [spawnRowGo] at h
    cases hct : CellType.ofChar ch with
    | none => simp [hct] at h
    | some ct =>
      simp only [hct] at h
      have h2 := ih (col + 1) _ acc2 h
      exact ⟨fun q hq => h2.1 q (spawnCell_tiles_mono imgs (tileSize * col) y acc ct hq),
             fun e he => h2.2 e (spawnCell_enemies_mono imgs (tileSize * col) y acc ct he)⟩

lemma spawnRowsGo_mono (imgs : SpawnImages) :
    ∀ (rows : List String) (ri : Nat) (acc acc2 : SpawnAcc),
      spawnRowsGo imgs ri acc rows = Except.ok acc2 →
      (∀ q ∈ acc.tiles, q ∈ acc2.tiles) ∧ (∀ e ∈ acc.enemies, e ∈ acc2.enemies) := by
  intro rows
  induction rows with
  | nil =>
    intro ri acc acc2 h
    simp only [spawnRowsGo] at h
    injection h with h
    subst h
    exact ⟨fun q hq => hq, fun e he => he⟩
  | cons row rest ih =>
    intro ri acc acc2 h
    simp only [spawnRowsGo] at h
    cases hrow : spawnRowGo imgs (tileSize * ri) 0 acc row.data with
    | error e => simp [hrow] at h
    | ok accMid =>
      simp only [hrow] at h
      have h1 := spawnRowGo_mono imgs (tileSize * ri) row.data 0 acc accMid hrow
      have h2 := ih (ri + 1) accMid acc2 h
      exact ⟨fun q hq => h2.1 q (h1.1 q hq), fun e he => h2.2 e (h1.2 e he)⟩

lemma spawnRowGo_E (imgs : SpawnImages) (y : ℚ) :
    ∀ (chars : List Char) (c col : Nat) (acc acc2 : SpawnAcc),
      chars.get? c = some 'E' →
      spawnRowGo imgs y col acc chars = Except.ok acc2 →
      enemyBlockTile (tileSize * (col + c)) y ∈ acc2.tiles ∧
      mkEnemy imgs (tileSize * (col + c)) (y - 64) ∈ acc2.enemies := by
  intro chars
  induction chars with
  | nil =>
    intro c col acc acc2 hc h
    simp at hc
  | cons ch rest ih =>
    intro c col acc acc2 hc h
    simp only [spawnRowGo] at h
    cases c with
    | zero =>
      obtain rfl : ch = 'E' := by simpa using hc
      rw [show CellType.ofChar 'E' = some CellType.ENEMY from by decide] at h
      have hmono := spawnRowGo_mono imgs y rest (col + 1) _ acc2 h
      have htile : enemyBlockTile (tileSize * col) y ∈
          (spawnCell imgs (tileSize * col) y acc CellType.ENEMY).tiles := by
        simp [spawnCell]
      have henemy : mkEnemy imgs (tileSize * col) (y - 64) ∈
          (spawnCell imgs (tileSize * col) y acc CellType.ENEMY).enemies := by
        simp [spawnCell]
      constructor
      · have := hmono.1 _ htile
        simpa using this
      · have := hmono.2 _ henemy
        simpa using this
    | succ c2 =>
      cases hct : CellType.ofChar ch with
      | none => simp [hct] at h
      | some ct =>
        simp only [hct] at h
        have hc2 : rest.get? c2 = some 'E' := by simpa using hc
        have hrec := ih c2 (col + 1) _ acc2 hc2 h
        have hcast : (tileSize * (↑(col + 1) + ↑c2) : ℚ) = tileSize * (↑col + ↑(c2 + 1)) := by
          push_cast
          ring
        rw [hcast] at hrec
        exact hrec

lemma spawnRowsGo_E (imgs : SpawnImages) :
    ∀ (rows : List String) (r ri : Nat) (row : String) (c : Nat) (acc acc2 : SpawnAcc),
      rows.get? r = some row → row.data.get? c = some 'E' →
      spawnRowsGo imgs ri acc rows = Except.ok acc2 →
      enemyBlockTile (tileSize * c) (tileSize * (ri + r)) ∈ acc2.tiles ∧
      mkEnemy imgs (tileSize * c) (tileSize * (ri + r) - 64) ∈ acc2.enemies := by
  intro rows
  induction rows with
  | nil =>
    intro r ri row c acc acc2 hr hcell h
    simp at hr
  | cons row0 rest ih =>
    intro r ri row c acc acc2 hr hcell h
    simp only [spawnRowsGo] at h
    cases hrowgo : spawnRowGo imgs (tileSize * ri) 0 acc row0.data with
    | error e => simp [hrowgo] at h
    | ok accMid =>
      simp only [hrowgo] at h
      cases r with
      | zero =>
        have hrow0 : row0 = row := by simpa using hr
        rw [hrow0] at hrowgo
        have hE := spawnRowGo_E imgs (tileSize * ri) row.data c 0 acc accMid hcell hrowgo
        have hmono := spawnRowsGo_mono imgs rest (ri + 1) accMid acc2 h
        constructor
        · have := hmono.1 _ hE.1
          simpa using this
        · have := hmono.2 _ hE.2
          simpa using this
      | succ r2 =>
        have hr2 : rest.get? r2 = some row := by simpa using hr
        have hrec := ih r2 (ri + 1) row c accMid acc2 hr2 hcell h
        have hcast : (tileSize * (↑(ri + 1) + ↑r2) : ℚ) = tileSize * (↑ri + ↑(r2 + 1)) := by
          push_cast
          ring
        rw [hcast] at hrec
        exact hrec

/-- Claim C10: for every `E` cell of a successfully constructed layout,
besides the enemy — placed 64 units above the cell — an invisible solid
tile with `collides` and neither `collectable` nor `kills` is spawned at
the cell's own position, carrying exactly the capability flags of a wall
tile. -/
theorem claim_C10_enemy_block (imgs : SpawnImages) (layout : List String) (r c : Nat)
    (row : String) (tiles : List Square) (p : Player) (enemies : List Character)
    (hr : layout.get? r = some row) (hcell : row.data.get? c = some 'E')
    (hok : spawn_sprites imgs layout = Except.ok (tiles, p, enemies)) :
    (enemyBlockTile (tileSize * c) (tileSize * r) ∈ tiles ∧
     (enemyBlockTile (tileSize * c) (tileSize * r)).collides = true ∧
     (enemyBlockTile (tileSize * c) (tileSize * r)).collectable = false ∧
     (enemyBlockTile (tileSize * c) (tileSize * r)).kills = false ∧
     (enemyBlockTile (tileSize * c) (tileSize * r)).image.blank = true ∧
     (enemyBlockTile (tileSize * c) (tileSize * r)).rect.x = tileSize * c ∧
     (enemyBlockTile (tileSize * c) (tileSize * r)).rect.y = tileSize * r ∧
     ((enemyBlockTile (tileSize * c) (tileSize * r)).collides =
        (wallTile imgs (tileSize * c) (tileSize * r)).collides ∧
      (enemyBlockTile (tileSize * c) (tileSize * r)).collectable =
        (wallTile imgs (tileSize * c) (tileSize * r)).collectable ∧
      (enemyBlockTile (tileSize * c) (tileSize * r)).kills =
        (wallTile imgs (tileSize * c) (tileSize * r)).kills)) ∧
    mkEnemy imgs (tileSize * c) (tileSize * r - 64) ∈ enemies := by
  unfold spawn_sprites at hok
  cases hrows : spawnRowsGo imgs 0 ⟨[], [], none⟩ layout with
  | error e => simp [hrows] at hok
  | ok acc =>
    simp only [hrows] at hok
    cases hp : acc.player with
    | none => simp [hp] at hok
    | some pl =>
      simp only [hp, Except.ok.injEq, Prod.mk.injEq] at hok
      obtain ⟨rfl, rfl, rfl⟩ := hok
      have hE := spawnRowsGo_E imgs layout r 0 row c ⟨[], [], none⟩ acc hr hcell hrows
      constructor
      · refine ⟨?_, rfl, rfl, rfl, rfl, rfl, rfl, rfl, rfl, rfl⟩
        have := hE.1
        simpa using this
      · have := hE.2
        simpa using this

/-- A layout with an enemy cell at `(0, 0)` and the player at `(0, 1)`. -/
def layoutEPW : List String := [("EP")]

/-- The tile group spawned from `layoutEPW`. -/
def tilesEPW : List Square := [enemyBlockTile (tileSize * (0 : ℕ)) (tileSize * (0 : ℕ))]

/-- The player spawned from `layoutEPW`. -/
def pEPW : Player := mkPlayer imgsW (tileSize * (1 : ℕ)) (tileSize * (0 : ℕ))

/-- The enemy list spawned from `layoutEPW`. -/
def enemiesEPW : List Character :=
  [mkEnemy imgsW (tileSize * (0 : ℕ)) (tileSize * (0 : ℕ) - 64)]

/-- Witness for claim C10: the `E` cell of `["EP"]` yields the invisible
solid block at the cell and the enemy 64 units above it. -/
theorem claim_C10_enemy_block_witness :
    (layoutEPW.get? 0 = some ("EP") ∧ ("EP" : String).data.get? 0 = some 'E' ∧
      spawn_sprites imgsW layoutEPW = Except.ok (tilesEPW, pEPW, enemiesEPW)) ∧
    ((enemyBlockTile (tileSize * (0 : ℕ)) (tileSize * (0 : ℕ)) ∈ tilesEPW ∧
      (enemyBlockTile (tileSize * (0 : ℕ)) (tileSize * (0 : ℕ))).collides = true ∧
      (enemyBlockTile (tileSize * (0 : ℕ)) (tileSize * (0 : ℕ))).collectable = false ∧
      (enemyBlockTile (tileSize * (0 : ℕ)) (tileSize * (0 : ℕ))).kills = false ∧
      (enemyBlockTile (tileSize * (0 : ℕ)) (tileSize * (0 : ℕ))).image.blank = true ∧
      (enemyBlockTile (tileSize * (0 : ℕ)) (tileSize * (0 : ℕ))).rect.x = tileSize * (0 : ℕ) ∧
      (enemyBlockTile (tileSize * (0 : ℕ)) (tileSize * (0 : ℕ))).rect.y = tileSize * (0 : ℕ) ∧
      ((enemyBlockTile (tileSize * (0 : ℕ)) (tileSize * (0 : ℕ))).collides =
         (wallTile imgsW (tileSize * (0 : ℕ)) (tileSize * (0 : ℕ))).collides ∧
       (enemyBlockTile (tileSize * (0 : ℕ)) (tileSize * (0 : ℕ))).collectable =
         (wallTile imgsW (tileSize * (0 : ℕ)) (tileSize * (0 : ℕ))).collectable ∧
       (enemyBlockTile (tileSize * (0 : ℕ)) (tileSize * (0 : ℕ))).kills =
         (wallTile imgsW (tileSize * (0 : ℕ)) (tileSize * (0 : ℕ))).kills)) ∧
     mkEnemy imgsW (tileSize * (0 : ℕ)) (tileSize * (0 : ℕ) - 64) ∈ enemiesEPW) :=
  ⟨⟨rfl, rfl, rfl⟩,
   claim_C10_enemy_block imgsW layoutEPW 0 0 ("EP") tilesEPW pEPW enemiesEPW rfl rfl rfl⟩

/-- Witness for claim C4 (amended): a bullet of speed 551 is past the
550-unit range after one tick and is indeed dead there. -/
theorem claim_C4_range_death_witness :
    550 < |(bulletTicks (Bullet.spawn 0 0 surfW Orientation.RIGHT 551) 1).x -
           (Bullet.spawn 0 0 surfW Orientation.RIGHT 551).spawnX| ∧
    (bulletTicks (Bullet.spawn 0 0 surfW Orientation.RIGHT 551) 1).is_alive = false :=
  ⟨by norm_num [bulletTicks, Bullet.update, Bullet.moved, Bullet.spawn, surfW],
   (claim_C4_range_death 0 0 surfW Orientation.RIGHT 551 1
     (by norm_num [bulletTicks, Bullet.update, Bullet.moved, Bullet.spawn, surfW])).1⟩

end Planetes
